import Mathlib

/-!
Verification of the locomotion data-preparation module
(`motion/datasets/locomotion.py` of StyleGestures).

The module manipulates 3-D numpy arrays indexed `[clip, frame, feature]`.
We embed such an array as a `Tensor3`: explicit dimensions plus a total
value function over natural indices (out-of-range entries are irrelevant;
tensor equality is only required on in-range indices).  Numeric values are
modelled as exact rationals; the Python code computes in float32/float64,
and the claims about exact identities are read in exact arithmetic.
-/

/-- A 3-D array `[clip, frame, feature]` with explicit shape. -/
structure Tensor3 where
  d0 : Nat
  d1 : Nat
  d2 : Nat
  val : Nat → Nat → Nat → ℚ

/-- Extensional equality of tensors: same shape and same entries at every
in-range index. -/
def Tensor3.Eq (a b : Tensor3) : Prop :=
  a.d0 = b.d0 ∧ a.d1 = b.d1 ∧ a.d2 = b.d2 ∧
    ∀ i t c, i < a.d0 → t < a.d1 → c < a.d2 → a.val i t c = b.val i t c

/-- The value-function type of a `Tensor3`. -/
def V3 : Type := Nat → Nat → Nat → ℚ

/-- Semantics of the numpy statement `aa[:, :, lo:hi:step] = ±src[:, :, ofs:ofs+(hi-lo):step]`:
slice position `k` of the left side is channel `lo + k*step`, and receives
slice position `k` of the right side, channel `ofs + k*step`; hence channel
`c` of the slice receives (possibly negated) channel `ofs + (c - lo)` of `src`. -/
def sliceAssign (aa src : V3) (lo hi step ofs : Nat) (neg : Bool) : V3 :=
  fun i t c =>
    if lo ≤ c ∧ c < hi ∧ (c - lo) % step = 0 then
      (if neg then -(src i t (ofs + (c - lo))) else src i t (ofs + (c - lo)))
    else aa i t c

/-- Semantics of the numpy statement `aa[:, :, ch] = -src[:, :, ch]`. -/
def chanAssignNeg (aa src : V3) (ch : Nat) : V3 :=
  fun i t c => if c = ch then -(src i t c) else aa i t c

/-- `mirror_data` (locomotion.py lines 10-22): swap the left/right channel
blocks 3:15 and 15:27 and 39:51 and 51:63, negating every third channel
(the x components) of each block, and negate channels 63 and 65.
All right-hand sides read the original `data`; the result is a copy. -/
def mirror_data (data : Tensor3) : Tensor3 :=
  { data with val :=
      let aa := data.val
      let aa := sliceAssign aa data.val 3 15 1 15 false
      let aa := sliceAssign aa data.val 3 15 3 15 true
      let aa := sliceAssign aa data.val 15 27 1 3 false
      let aa := sliceAssign aa data.val 15 27 3 3 true
      let aa := sliceAssign aa data.val 39 51 1 51 false
      let aa := sliceAssign aa data.val 39 51 3 51 true
      let aa := sliceAssign aa data.val 51 63 1 39 false
      let aa := sliceAssign aa data.val 51 63 3 39 true
      let aa := chanAssignNeg aa data.val 63
      chanAssignNeg aa data.val 65 }

/-- `reverse_time` (locomotion.py lines 25-30): reverse the frame axis
(`data[:, -1::-1, :]`), then negate the three control channels 63, 64, 65
in place on the reversed copy. -/
def reverse_time (data : Tensor3) : Tensor3 :=
  { data with val :=
      let aa : V3 := fun i t c => data.val i (data.d1 - 1 - t) c
      let aa := chanAssignNeg aa aa 63
      let aa := chanAssignNeg aa aa 64
      chanAssignNeg aa aa 65 }

/-- A 2-D array `[row, feature]`, the shape obtained by
`data.reshape((shape[0]*shape[1], shape[2]))`. -/
structure Tensor2 where
  r0 : Nat
  r1 : Nat
  val : Nat → Nat → ℚ

/-- `data.reshape((shape[0]*shape[1], shape[2]))`: row `r` of the flat view
is clip `r / d1`, frame `r % d1` of the 3-D array. -/
def Tensor3.flatten (a : Tensor3) : Tensor2 :=
  ⟨a.d0 * a.d1, a.d2, fun r c => a.val (r / a.d1) (r % a.d1) c⟩

/-- `flat.reshape(shape)` back to 3-D: clip `i`, frame `t` is flat row
`i * d1 + t`. -/
def Tensor2.unflatten (b : Tensor2) (d0 d1 : Nat) : Tensor3 :=
  ⟨d0, d1, b.r1, fun i t c => b.val (i * d1 + t) c⟩

/-- Modelled from the spec: `sklearn.preprocessing.StandardScaler` is an
external library object, described by the spec as the "fitted feature-wise
mean/variance used for standardization and its inverse" performing
"per-feature mean/variance normalization".  We model the fitted state as a
per-feature mean and a per-feature scale. -/
structure Scaler where
  mean : Nat → ℚ
  scale : Nat → ℚ

/-- Modelled from the spec: `scaler.transform` subtracts the per-feature
mean and divides by the per-feature scale, elementwise over rows. -/
def Scaler.transform (s : Scaler) (b : Tensor2) : Tensor2 :=
  { b with val := fun r c => (b.val r c - s.mean c) / s.scale c }

/-- Modelled from the spec: `scaler.inverse_transform` multiplies by the
per-feature scale and adds back the per-feature mean. -/
def Scaler.inverse_transform (s : Scaler) (b : Tensor2) : Tensor2 :=
  { b with val := fun r c => b.val r c * s.scale c + s.mean c }

/-- Per-feature mean of a 2-D array over its rows. -/
def colMean (b : Tensor2) (c : Nat) : ℚ :=
  (∑ r ∈ Finset.range b.r0, b.val r c) / (b.r0 : ℚ)

/-- Per-feature (biased) variance of a 2-D array over its rows. -/
def colVar (b : Tensor2) (c : Nat) : ℚ :=
  (∑ r ∈ Finset.range b.r0, (b.val r c - colMean b c) ^ 2) / (b.r0 : ℚ)

/-- Modelled from the spec: sklearn replaces a zero scale (a feature with
zero variance) by 1 so that transforming never divides by zero. -/
def handleZeros (x : ℚ) : ℚ := if x = 0 then 1 else x

/-- Modelled from the spec: `StandardScaler().fit(flat)` stores the
per-feature mean and the per-feature scale, the square root of the
per-feature variance with zeros replaced by 1.  The square root (a float
library routine with no exact rational counterpart) is abstracted as the
parameter `sqrtFn`; every theorem below holds for an arbitrary `sqrtFn`. -/
def fitScaler (sqrtFn : ℚ → ℚ) (b : Tensor2) : Scaler :=
  ⟨fun c => colMean b c, fun c => handleZeros (sqrtFn (colVar b c))⟩

/-- `inv_standardize` (locomotion.py lines 33-37): flatten, apply the
scaler's inverse transform, reshape back. -/
def inv_standardize (data : Tensor3) (scaler : Scaler) : Tensor3 :=
  (scaler.inverse_transform data.flatten).unflatten data.d0 data.d1

/-- `fit_and_standardize` (locomotion.py lines 40-45): flatten a copy, fit
a fresh `StandardScaler` on it, transform, reshape back; returns the scaled
data together with the fitted scaler. -/
def fit_and_standardize (sqrtFn : ℚ → ℚ) (data : Tensor3) : Tensor3 × Scaler :=
  let flat := data.flatten
  let scaler := fitScaler sqrtFn flat
  ((scaler.transform flat).unflatten data.d0 data.d1, scaler)

/-- `standardize` (locomotion.py lines 48-52): flatten a copy, transform
with the given scaler, reshape back. -/
def standardize (data : Tensor3) (scaler : Scaler) : Tensor3 :=
  (scaler.transform data.flatten).unflatten data.d0 data.d1

/-- `np.zeros((a, b, c))`. -/
def zeros3 (a b c : Nat) : Tensor3 := ⟨a, b, c, fun _ _ _ => 0⟩

/-- Semantics of `x[clip, :, lo:hi] = v` (a constant broadcast). -/
def setClipSlice (x : Tensor3) (clip lo hi : Nat) (v : ℚ) : Tensor3 :=
  { x with val := fun i t c =>
      if i = clip ∧ lo ≤ c ∧ c < hi then v else x.val i t c }

/-- Semantics of `x[clip, :, ch] = v` (a constant broadcast). -/
def setClipChan (x : Tensor3) (clip ch : Nat) (v : ℚ) : Tensor3 :=
  { x with val := fun i t c =>
      if i = clip ∧ c = ch then v else x.val i t c }

/-- Semantics of `x[:, :, :n] = np.zeros((d0, d1, n))`. -/
def zeroFirstChans (n : Nat) (x : Tensor3) : Tensor3 :=
  { x with val := fun i t c => if c < n then 0 else x.val i t c }

/-- `create_synth_test_data` (locomotion.py lines 55-75): build 7 synthetic
clips by writing constant control velocities into a zero tensor, then
standardize with the given scaler and re-zero the first 63 pose channels.
(`lo_vel = 1.0`, `hi_vel = 2.5`, `lo_r_vel = hi_r_vel = 0.08`; the final
`astype(np.float32)` is a precision cast, identity in the exact model.) -/
def create_synth_test_data (n_frames nFeats : Nat) (scaler : Scaler) : Tensor3 :=
  let syth_data := zeros3 7 n_frames nFeats
  let lo_vel : ℚ := 1
  let hi_vel : ℚ := 5 / 2
  let lo_r_vel : ℚ := 2 / 25
  let hi_r_vel : ℚ := 2 / 25
  let syth_data := setClipSlice syth_data 0 63 65 0
  let syth_data := setClipChan syth_data 1 63 lo_vel
  let syth_data := setClipChan syth_data 2 64 lo_vel
  let syth_data := setClipChan syth_data 3 64 hi_vel
  let syth_data := setClipChan syth_data 4 64 (-lo_vel)
  let syth_data := setClipChan syth_data 5 64 lo_vel
  let syth_data := setClipChan syth_data 5 65 lo_r_vel
  let syth_data := setClipChan syth_data 6 64 hi_vel
  let syth_data := setClipChan syth_data 6 65 hi_r_vel
  let syth_data := standardize syth_data scaler
  zeroFirstChans 63 syth_data

/-- `a[-n:, :, :]`: the last `n` clips (all of them when there are fewer). -/
def lastClips (n : Nat) (a : Tensor3) : Tensor3 :=
  ⟨min n a.d0, a.d1, a.d2, fun i t c => a.val (a.d0 - min n a.d0 + i) t c⟩

/-- `a[:-n, :, :]`: everything but the last `n` clips. -/
def dropLastClips (n : Nat) (a : Tensor3) : Tensor3 :=
  ⟨a.d0 - n, a.d1, a.d2, a.val⟩

/-- `np.concatenate((a, b), axis=0)`. -/
def concatClips (a b : Tensor3) : Tensor3 :=
  ⟨a.d0 + b.d0, a.d1, a.d2,
    fun i t c => if i < a.d0 then a.val i t c else b.val (i - a.d0) t c⟩

/-- `np.tile(a, (n, 1, 1))`: repeat the clip axis `n` times. -/
def tileClips (n : Nat) (a : Tensor3) : Tensor3 :=
  ⟨n * a.d0, a.d1, a.d2, fun i t c => a.val (i % a.d0) t c⟩

/-- `a[:, :, -3:]`: the last three (control) channels. -/
def lastChans3 (a : Tensor3) : Tensor3 :=
  ⟨a.d0, a.d1, min 3 a.d2, fun i t c => a.val i t (a.d2 - min 3 a.d2 + c)⟩

/-- `a[:, :, :-3]`: everything but the last three channels. -/
def dropLastChans3 (a : Tensor3) : Tensor3 :=
  ⟨a.d0, a.d1, a.d2 - 3, a.val⟩

/-- `np.concatenate((a, b), axis=2)` (used by `save_animation`). -/
def concatChans (a b : Tensor3) : Tensor3 :=
  ⟨a.d0, a.d1, a.d2 + b.d2,
    fun i t c => if c < a.d2 then a.val i t c else b.val i t (c - a.d2)⟩

/-- The `hparams.Data` configuration fields read by the module. -/
structure DataConf where
  framerate : Nat
  mirror : Bool
  reverse_time : Bool
  seqlen : Nat
  n_lookahead : Nat
  dropout : ℚ

/-- The `hparams.Train` configuration fields read by the module. -/
structure TrainConf where
  batch_size : Nat

/-- The hyperparameter object: only the fields the constructor reads. -/
structure HParams where
  Data : DataConf
  Train : TrainConf

/-- All contiguous windows of length `w` of a list, sliding by one. -/
def slidingWindows {α : Type} (w : Nat) : List α → List (List α)
  | [] => []
  | x :: rest =>
      if w ≤ (x :: rest).length then (x :: rest).take w :: slidingWindows w rest
      else []

/-- Modelled from the spec: `MotionDataset` (imported from `.motion_data`,
a file not under `src/`) is a "windowed view over standardized tensors,
parameterized by window length and lookahead": it stores the control and
joint tensors together with the windowing parameters, and each clip is cut
into sliding windows, each window holding `seqlen` past frames, the current
frame and `n_lookahead` future frames (`seqlen + 1 + n_lookahead` frames). -/
structure MotionDataset where
  control : Tensor3
  motion : Tensor3
  seqlen : Nat
  n_lookahead : Nat
  dropout : ℚ

/-- The number of frames a single window spans. -/
def MotionDataset.windowSize (ds : MotionDataset) : Nat :=
  ds.seqlen + 1 + ds.n_lookahead

/-- Modelled from the spec: the windows `MotionDataset` extracts from one
clip, given as the clip's list of frames. -/
def MotionDataset.windowsOfClip {α : Type} (ds : MotionDataset) (frames : List α) :
    List (List α) :=
  slidingWindows ds.windowSize frames

/-- Modelled from the spec: `TestDataset` (imported from `.motion_data`,
not under `src/`) wraps the test control and joint tensors unchanged. -/
structure TestDataset where
  control : Tensor3
  motion : Tensor3

/-- The state a `Locomotion` (or `Human36m`) object holds after `__init__`. -/
structure LocState where
  n_test : Nat
  scaler : Scaler
  frame_rate : Nat
  train_dataset : MotionDataset
  test_dataset : TestDataset
  validation_dataset : MotionDataset
  seqlen : Nat
  n_x_channels : Nat
  n_cond_channels : Nat

/-- `Locomotion.__init__` (locomotion.py lines 79-156) after the `np.load`
calls: the loaded `train_data` and `test_data` arrays are passed in as
arguments (file I/O is outside the model, and `astype(np.float32)` is a
precision cast).  The body follows the source line by line: split off the
last 100 clips as validation, optionally append mirrored and time-reversed
copies of the training clips, fit a scaler on the augmented training set
and standardize everything with it, append 7 synthetic test clips, tile
the test set to cover the batch size, and build the dataset objects. -/
def locomotionInit (sqrtFn : ℚ → ℚ) (hparams : HParams)
    (train_data0 test_data : Tensor3) : LocState :=
  let validation_data := lastClips 100 train_data0
  let train_data := dropLastClips 100 train_data0
  let train_data :=
    if hparams.Data.mirror then concatClips train_data (mirror_data train_data)
    else train_data
  let train_data :=
    if hparams.Data.reverse_time then concatClips train_data (reverse_time train_data)
    else train_data
  let fitted := fit_and_standardize sqrtFn train_data
  let train_data := fitted.1
  let scaler := fitted.2
  let validation_data := standardize validation_data scaler
  let all_test_data := standardize test_data scaler
  let synth_data2 := create_synth_test_data test_data.d1 test_data.d2 scaler
  let all_test_data := concatClips all_test_data synth_data2
  let n_test := all_test_data.d0
  let n_tiles := 1 + hparams.Train.batch_size / n_test
  let all_test_data := tileClips n_tiles all_test_data
  { n_test := n_test
    scaler := scaler
    frame_rate := hparams.Data.framerate
    train_dataset :=
      ⟨lastChans3 train_data, dropLastChans3 train_data,
        hparams.Data.seqlen, hparams.Data.n_lookahead, hparams.Data.dropout⟩
    test_dataset := ⟨lastChans3 all_test_data, dropLastChans3 all_test_data⟩
    validation_dataset :=
      ⟨lastChans3 validation_data, dropLastChans3 validation_data,
        hparams.Data.seqlen, hparams.Data.n_lookahead, hparams.Data.dropout⟩
    seqlen := hparams.Data.seqlen
    n_x_channels := all_test_data.d2 - 3
    n_cond_channels :=
      (all_test_data.d2 - 3) * hparams.Data.seqlen +
        3 * (hparams.Data.seqlen + 1 + hparams.Data.n_lookahead) }

/-- The augmentation block of the constructor (lines 110-117) as a single
function of the training tensor: optionally append the mirrored clips,
then optionally append the time-reversed clips. -/
def augmentTrain (hp : HParams) (x : Tensor3) : Tensor3 :=
  let y := if hp.Data.mirror then concatClips x (mirror_data x) else x
  if hp.Data.reverse_time then concatClips y (reverse_time y) else y

/-- The hardcoded joint-parent array of `Locomotion.save_animation`
(locomotion.py lines 166-193): a 21-entry array minus 1. -/
def locomotionAnimParents : List Int :=
  ([0, 1, 2, 3, 4, 1, 6, 7, 8, 1, 10, 11, 12, 12, 14, 15, 16, 12, 18, 19, 20] :
    List Int).map (fun x => x - 1)

/-- The computational core of `Locomotion.save_animation` (lines 158-200):
concatenate motion and control channels, inverse-standardize with the
stored scaler, and render the first `min(n_test, clips)` clips.  Returns
the clip array written to the `.npz` file, the number of rendered clips,
and the parent array handed to the renderer (the file writes themselves
are outside the model). -/
def locomotionSaveAnimation (self : LocState) (control_data motion_data : Tensor3) :
    Tensor3 × Nat × List Int :=
  let animation_data := concatChans motion_data control_data
  let anim_clip := inv_standardize animation_data self.scaler
  let n_clips := min self.n_test anim_clip.d0
  (anim_clip, n_clips, locomotionAnimParents)

/-- `Locomotion.n_channels` (lines 202-203). -/
def locomotionNChannels (self : LocState) : Nat × Nat :=
  (self.n_x_channels, self.n_cond_channels)

/-- `Human36m.__init__` (locomotion.py lines 318-395): a verbatim copy of
`Locomotion.__init__`, translated statement by statement from its own
source lines. -/
def human36mInit (sqrtFn : ℚ → ℚ) (hparams : HParams)
    (train_data0 test_data : Tensor3) : LocState :=
  let validation_data := lastClips 100 train_data0
  let train_data := dropLastClips 100 train_data0
  let train_data :=
    if hparams.Data.mirror then concatClips train_data (mirror_data train_data)
    else train_data
  let train_data :=
    if hparams.Data.reverse_time then concatClips train_data (reverse_time train_data)
    else train_data
  let fitted := fit_and_standardize sqrtFn train_data
  let train_data := fitted.1
  let scaler := fitted.2
  let validation_data := standardize validation_data scaler
  let all_test_data := standardize test_data scaler
  let synth_data2 := create_synth_test_data test_data.d1 test_data.d2 scaler
  let all_test_data := concatClips all_test_data synth_data2
  let n_test := all_test_data.d0
  let n_tiles := 1 + hparams.Train.batch_size / n_test
  let all_test_data := tileClips n_tiles all_test_data
  { n_test := n_test
    scaler := scaler
    frame_rate := hparams.Data.framerate
    train_dataset :=
      ⟨lastChans3 train_data, dropLastChans3 train_data,
        hparams.Data.seqlen, hparams.Data.n_lookahead, hparams.Data.dropout⟩
    test_dataset := ⟨lastChans3 all_test_data, dropLastChans3 all_test_data⟩
    validation_dataset :=
      ⟨lastChans3 validation_data, dropLastChans3 validation_data,
        hparams.Data.seqlen, hparams.Data.n_lookahead, hparams.Data.dropout⟩
    seqlen := hparams.Data.seqlen
    n_x_channels := all_test_data.d2 - 3
    n_cond_channels :=
      (all_test_data.d2 - 3) * hparams.Data.seqlen +
        3 * (hparams.Data.seqlen + 1 + hparams.Data.n_lookahead) }

/-- The hardcoded joint-parent array of `Human36m.save_animation`
(lines 405-432), identical to the one in `Locomotion.save_animation`. -/
def human36mAnimParents : List Int :=
  ([0, 1, 2, 3, 4, 1, 6, 7, 8, 1, 10, 11, 12, 12, 14, 15, 16, 12, 18, 19, 20] :
    List Int).map (fun x => x - 1)

/-- The computational core of `Human36m.save_animation` (lines 397-439),
a verbatim copy of `Locomotion.save_animation`. -/
def human36mSaveAnimation (self : LocState) (control_data motion_data : Tensor3) :
    Tensor3 × Nat × List Int :=
  let animation_data := concatChans motion_data control_data
  let anim_clip := inv_standardize animation_data self.scaler
  let n_clips := min self.n_test anim_clip.d0
  (anim_clip, n_clips, human36mAnimParents)

/-- `Human36m.n_channels` (lines 441-442). -/
def human36mNChannels (self : LocState) : Nat × Nat :=
  (self.n_x_channels, self.n_cond_channels)

/-- Modelled from the spec: the `Skeleton` class (used by
`Human36m.prepare_data` but imported from a file not under `src/`) is a
"fixed joint-parent array plus left/right joint-index sets, describing a
kinematic tree".  Parents are integers, `-1` marking the root. -/
structure Skeleton where
  parents : List Int
  joints_left : List Nat
  joints_right : List Nat

/-- Walk up the parent chain until a joint outside `removed` (or the root)
is reached; `fuel` bounds the walk and is instantiated with the number of
joints, enough for any ancestor chain of the tree. -/
def climbOut (parents : List Int) (removed : List Nat) : Nat → Int → Int
  | 0, p => p
  | fuel + 1, p =>
      if 0 ≤ p ∧ p.toNat ∈ removed then
        climbOut parents removed fuel (parents.getD p.toNat (-1))
      else p

/-- The index a kept joint receives after the removed joints are compacted
away: the number of kept joints strictly below it. -/
def reindexJoint (kept : List Nat) (p : Int) : Int :=
  if p < 0 then p else ((kept.filter (fun x => (x : Int) < p)).length : Int)

/-- Modelled from the spec: `skeleton.remove_joints(removed)` — the
skeleton is "mutable only via joint removal, which also requires
re-pointing children of removed joints to reachable ancestors".  Each kept
joint keeps one parent entry, re-pointed to its nearest non-removed
ancestor and re-indexed into the compacted numbering; the left/right index
sets are filtered and re-indexed the same way. -/
def Skeleton.remove_joints (sk : Skeleton) (removed : List Nat) : Skeleton :=
  let kept := (List.range sk.parents.length).filter (fun j => ¬ j ∈ removed)
  { parents :=
      kept.map (fun j =>
        reindexJoint kept
          (climbOut sk.parents removed sk.parents.length (sk.parents.getD j (-1))))
    joints_left :=
      (sk.joints_left.filter (fun j => j ∈ kept)).map
        (fun j => (reindexJoint kept (j : Int)).toNat)
    joints_right :=
      (sk.joints_right.filter (fun j => j ∈ kept)).map
        (fun j => (reindexJoint kept (j : Int)).toNat) }

/-- `self.skeleton._parents[i] = v`. -/
def Skeleton.setParent (sk : Skeleton) (i : Nat) (v : Int) : Skeleton :=
  { sk with parents := sk.parents.set i v }

/-- The 32-joint Human3.6M skeleton hardcoded in `Human36m.prepare_data`
(locomotion.py lines 255-292). -/
def h36mSkeleton : Skeleton :=
  { parents :=
      [-1, 0, 1, 2, 3, 4, 0, 6, 7, 8, 9, 0, 11, 12, 13, 14, 12, 16, 17,
        18, 19, 20, 19, 22, 12, 24, 25, 26, 27, 28, 27, 30]
    joints_left := [6, 7, 8, 9, 10, 16, 17, 18, 19, 20, 21, 22, 23]
    joints_right := [1, 2, 3, 4, 5, 24, 25, 26, 27, 28, 29, 30, 31] }

/-- The 15 removed joints of `Human36m.prepare_data` (lines 293-309). -/
def h36mRemovedJoints : List Nat :=
  [4, 5, 9, 10, 11, 16, 20, 21, 22, 23, 24, 28, 29, 30, 31]

/-- `self.kept_joints = np.array([x for x in range(32) if x not in
self.removed_joints])` (lines 310-312). -/
def h36mKeptJoints : List Nat :=
  (List.range 32).filter (fun x => ¬ x ∈ h36mRemovedJoints)

/-- The skeleton state after `Human36m.prepare_data` edits it
(lines 313-315): remove the 15 joints, then apply the two hardcoded parent
overrides `_parents[11] = 8` and `_parents[14] = 8`. -/
def h36mPreparedSkeleton : Skeleton :=
  ((h36mSkeleton.remove_joints h36mRemovedJoints).setParent 11 8).setParent 14 8

/-- Flat per-channel view of what `mirror_data` computes, read off the
eight slice assignments and two channel negations (later statements
override earlier ones on the stepped sub-slices). -/
def mirrorSpecVal (data : Tensor3) (i t c : Nat) : ℚ :=
  if 3 ≤ c ∧ c < 15 then
    (if (c - 3) % 3 = 0 then -(data.val i t (c + 12)) else data.val i t (c + 12))
  else if 15 ≤ c ∧ c < 27 then
    (if (c - 15) % 3 = 0 then -(data.val i t (c - 12)) else data.val i t (c - 12))
  else if 39 ≤ c ∧ c < 51 then
    (if (c - 39) % 3 = 0 then -(data.val i t (c + 12)) else data.val i t (c + 12))
  else if 51 ≤ c ∧ c < 63 then
    (if (c - 51) % 3 = 0 then -(data.val i t (c - 12)) else data.val i t (c - 12))
  else if c = 63 then -(data.val i t c)
  else if c = 65 then -(data.val i t c)
  else data.val i t c

/-! ## Helper lemmas -/

set_option maxHeartbeats 1000000 in
lemma mirror_val_eq (data : Tensor3) (i t c : Nat) (hc : c < 66) :
    (mirror_data data).val i t c = mirrorSpecVal data i t c := by
  interval_cases c <;>
    simp [mirror_data, sliceAssign, chanAssignNeg, mirrorSpecVal]

lemma mirror_data_val_untouched (data : Tensor3) (i t c : Nat)
    (h : c < 3 ∨ (27 ≤ c ∧ c < 39) ∨ c = 64 ∨ 66 ≤ c) :
    (mirror_data data).val i t c = data.val i t c := by
  show (chanAssignNeg _ _ 65) i t c = _
  rw [chanAssignNeg, if_neg (by omega)]
  rw [chanAssignNeg, if_neg (by omega)]
  rw [sliceAssign, if_neg (by omega)]
  rw [sliceAssign, if_neg (by omega)]
  rw [sliceAssign, if_neg (by omega)]
  rw [sliceAssign, if_neg (by omega)]
  rw [sliceAssign, if_neg (by omega)]
  rw [sliceAssign, if_neg (by omega)]
  rw [sliceAssign, if_neg (by omega)]
  rw [sliceAssign, if_neg (by omega)]

lemma reverse_time_d1 (data : Tensor3) : (reverse_time data).d1 = data.d1 := rfl

lemma handleZeros_ne_zero (x : ℚ) : handleZeros x ≠ 0 := by
  unfold handleZeros
  split_ifs with h
  · exact one_ne_zero
  · exact h

lemma row_div_self (i t d1 : Nat) (ht : t < d1) : (i * d1 + t) / d1 = i := by
  have h0 : 0 < d1 := lt_of_le_of_lt (Nat.zero_le t) ht
  rw [Nat.mul_comm, Nat.mul_add_div h0, Nat.div_eq_of_lt ht, Nat.add_zero]

lemma row_mod_self (i t d1 : Nat) (ht : t < d1) : (i * d1 + t) % d1 = t := by
  rw [Nat.mul_comm, Nat.mul_add_mod, Nat.mod_eq_of_lt ht]

lemma slidingWindows_length {α : Type} (w : Nat) (hw : 1 ≤ w) :
    ∀ xs : List α, (slidingWindows w xs).length = xs.length + 1 - w := by
  intro xs
  induction xs with
  | nil => simp only [slidingWindows, List.length_nil]; omega
  | cons x rest ih =>
      simp only [slidingWindows, List.length_cons]
      split_ifs with h
      · simp only [List.length_cons, ih]
        simp only [List.length_cons] at h
        omega
      · simp only [List.length_cons, List.length_nil] at h ⊢
        omega

lemma inv_standardize_standardize (data : Tensor3) (scaler : Scaler)
    (hs : ∀ c, c < data.d2 → scaler.scale c ≠ 0) :
    Tensor3.Eq (inv_standardize (standardize data scaler) scaler) data := by
  refine ⟨rfl, rfl, rfl, ?_⟩
  intro i t c hi ht hc
  have ht' : t < data.d1 := ht
  have hc' : c < data.d2 := hc
  simp only [inv_standardize, standardize, Scaler.transform, Scaler.inverse_transform,
    Tensor3.flatten, Tensor2.unflatten]
  simp only [row_div_self i t data.d1 ht', row_mod_self i t data.d1 ht']
  rw [div_mul_cancel₀ _ (hs c hc'), sub_add_cancel]

lemma reverse_time_val (data : Tensor3) (i t c : Nat) :
    (reverse_time data).val i t c =
      if c = 63 ∨ c = 64 ∨ c = 65 then -(data.val i (data.d1 - 1 - t) c)
      else data.val i (data.d1 - 1 - t) c := by
  simp only [reverse_time, chanAssignNeg]
  by_cases h65 : c = 65 <;> by_cases h64 : c = 64 <;> by_cases h63 : c = 63 <;>
    simp [h65, h64, h63]

/-! ## Claims -/

set_option maxHeartbeats 2000000 in
/-- C1: `mirror_data` is an involution — for every 3-D clip tensor with at
least 66 feature channels, applying `mirror_data` twice returns a tensor
equal to the original (the left/right channel blocks 3:15 / 15:27 and
39:51 / 51:63 are swapped with their x components negated, and channels 63
and 65 are negated, so a second application undoes the first). -/
theorem mirror_data_involution (data : Tensor3) (hd2 : 66 ≤ data.d2) :
    Tensor3.Eq (mirror_data (mirror_data data)) data := by
  refine ⟨rfl, rfl, rfl, ?_⟩
  intro i t c _ _ _
  rcases lt_or_ge c 66 with hlt | hge
  · interval_cases c <;> simp [mirror_val_eq, mirrorSpecVal]
  · rw [mirror_data_val_untouched _ _ _ _ (Or.inr (Or.inr (Or.inr hge))),
      mirror_data_val_untouched _ _ _ _ (Or.inr (Or.inr (Or.inr hge)))]

/-- Witness for C1 at a concrete 1-clip, 1-frame, 66-channel tensor. -/
theorem mirror_data_involution_witness :
    Tensor3.Eq
      (mirror_data (mirror_data (Tensor3.mk 1 1 66 fun _ _ c => (c : ℚ))))
      (Tensor3.mk 1 1 66 fun _ _ c => (c : ℚ)) :=
  mirror_data_involution (Tensor3.mk 1 1 66 fun _ _ c => (c : ℚ)) (by norm_num)

/-- C8: `reverse_time` is an involution — for every 3-D clip tensor with at
least 66 feature channels, applying `reverse_time` twice returns the
original tensor (frame order reversal and negation of the control channels
63, 64, 65 are each self-inverse). -/
theorem reverse_time_involution (data : Tensor3) (hd2 : 66 ≤ data.d2) :
    Tensor3.Eq (reverse_time (reverse_time data)) data := by
  refine ⟨rfl, rfl, rfl, ?_⟩
  intro i t c _ ht _
  rw [reverse_time_val, reverse_time_d1, reverse_time_val]
  have hidx : data.d1 - 1 - (data.d1 - 1 - t) = t := by
    simp only [reverse_time_d1] at ht; omega
  split_ifs <;> simp [hidx]

/-- Witness for C8 at a concrete 1-clip, 2-frame, 66-channel tensor. -/
theorem reverse_time_involution_witness :
    Tensor3.Eq
      (reverse_time (reverse_time
        (Tensor3.mk 1 2 66 fun _ t c => (t : ℚ) * 100 + (c : ℚ))))
      (Tensor3.mk 1 2 66 fun _ t c => (t : ℚ) * 100 + (c : ℚ)) :=
  reverse_time_involution
    (Tensor3.mk 1 2 66 fun _ t c => (t : ℚ) * 100 + (c : ℚ)) (by norm_num)

/-- C9: `mirror_data` frame condition — the output agrees with the input
on every channel outside the swapped/negated set: channels 0..2, 27..38,
64, and every channel from 66 upward are unchanged, and the shape is
preserved.  (The input itself is never written: line 11 takes a copy and
all later statements write only into the copy, which the purely functional
embedding captures by construction.) -/
theorem mirror_data_frame (data : Tensor3) (i t c : Nat)
    (h : c < 3 ∨ (27 ≤ c ∧ c < 39) ∨ c = 64 ∨ 66 ≤ c) :
    (mirror_data data).val i t c = data.val i t c ∧
      (mirror_data data).d0 = data.d0 ∧ (mirror_data data).d1 = data.d1 ∧
      (mirror_data data).d2 = data.d2 :=
  ⟨mirror_data_val_untouched data i t c h, rfl, rfl, rfl⟩

/-- Witness for C9 at channel 64 of a concrete tensor. -/
theorem mirror_data_frame_witness :
    (mirror_data (Tensor3.mk 1 1 66 fun _ _ c => (c : ℚ))).val 0 0 64 =
        (Tensor3.mk 1 1 66 fun _ _ c => (c : ℚ)).val 0 0 64 ∧
      (mirror_data (Tensor3.mk 1 1 66 fun _ _ c => (c : ℚ))).d0 =
        (Tensor3.mk 1 1 66 fun _ _ c => (c : ℚ)).d0 ∧
      (mirror_data (Tensor3.mk 1 1 66 fun _ _ c => (c : ℚ))).d1 =
        (Tensor3.mk 1 1 66 fun _ _ c => (c : ℚ)).d1 ∧
      (mirror_data (Tensor3.mk 1 1 66 fun _ _ c => (c : ℚ))).d2 =
        (Tensor3.mk 1 1 66 fun _ _ c => (c : ℚ)).d2 :=
  mirror_data_frame (Tensor3.mk 1 1 66 fun _ _ c => (c : ℚ)) 0 0 64
    (Or.inr (Or.inr (Or.inl rfl)))

/-- C2: standardization round-trip — for every 3-D data tensor and every
fitted scaler whose per-feature scale is non-zero (every feature with
non-zero variance has a non-zero scale), `inv_standardize (standardize
data scaler) scaler` equals the original data exactly in exact arithmetic;
and likewise for the scaler returned by `fit_and_standardize`, whose
per-feature scale is always non-zero because sklearn replaces a zero scale
by 1 (`sqrtFn` is the abstracted square root, arbitrary here). -/
theorem standardize_roundtrip (data : Tensor3) (scaler : Scaler) (sqrtFn : ℚ → ℚ)
    (hs : ∀ c, c < data.d2 → scaler.scale c ≠ 0) :
    Tensor3.Eq (inv_standardize (standardize data scaler) scaler) data ∧
      Tensor3.Eq
        (inv_standardize (fit_and_standardize sqrtFn data).1
          (fit_and_standardize sqrtFn data).2) data := by
  constructor
  · exact inv_standardize_standardize data scaler hs
  · exact inv_standardize_standardize data (fitScaler sqrtFn data.flatten)
      (fun c _ => handleZeros_ne_zero _)

/-- Witness for C2 at a concrete one-entry tensor and unit scaler. -/
theorem standardize_roundtrip_witness :
    Tensor3.Eq
        (inv_standardize
          (standardize (Tensor3.mk 1 1 1 fun _ _ _ => 3)
            (Scaler.mk (fun _ => 0) (fun _ => 1)))
          (Scaler.mk (fun _ => 0) (fun _ => 1)))
        (Tensor3.mk 1 1 1 fun _ _ _ => 3) ∧
      Tensor3.Eq
        (inv_standardize
          (fit_and_standardize id (Tensor3.mk 1 1 1 fun _ _ _ => 3)).1
          (fit_and_standardize id (Tensor3.mk 1 1 1 fun _ _ _ => 3)).2)
        (Tensor3.mk 1 1 1 fun _ _ _ => 3) :=
  standardize_roundtrip (Tensor3.mk 1 1 1 fun _ _ _ => 3)
    (Scaler.mk (fun _ => 0) (fun _ => 1)) id (fun _ _ => one_ne_zero)

/-- C3: pipeline order in the `Locomotion` constructor — the split into
validation (last 100 clips) and training (all earlier clips) happens
before augmentation and before standardization: for every input and
hyperparameter setting, the scaler is fitted on the augmented training set
only, the standardized training tensors come from the augmented first
`n - 100` clips, the validation tensors come from standardizing the last
100 original (never augmented) clips, and the test tensors come from
standardizing the original (never augmented) test clips. -/
theorem locomotion_pipeline_order (sqrtFn : ℚ → ℚ) (hp : HParams)
    (train test : Tensor3) :
    (locomotionInit sqrtFn hp train test).scaler =
        (fit_and_standardize sqrtFn (augmentTrain hp (dropLastClips 100 train))).2 ∧
      (locomotionInit sqrtFn hp train test).train_dataset.control =
        lastChans3
          (fit_and_standardize sqrtFn (augmentTrain hp (dropLastClips 100 train))).1 ∧
      (locomotionInit sqrtFn hp train test).train_dataset.motion =
        dropLastChans3
          (fit_and_standardize sqrtFn (augmentTrain hp (dropLastClips 100 train))).1 ∧
      (locomotionInit sqrtFn hp train test).validation_dataset.control =
        lastChans3
          (standardize (lastClips 100 train)
            (locomotionInit sqrtFn hp train test).scaler) ∧
      (locomotionInit sqrtFn hp train test).validation_dataset.motion =
        dropLastChans3
          (standardize (lastClips 100 train)
            (locomotionInit sqrtFn hp train test).scaler) ∧
      (locomotionInit sqrtFn hp train test).test_dataset.control =
        lastChans3
          (tileClips (1 + hp.Train.batch_size / (test.d0 + 7))
            (concatClips
              (standardize test (locomotionInit sqrtFn hp train test).scaler)
              (create_synth_test_data test.d1 test.d2
                (locomotionInit sqrtFn hp train test).scaler))) ∧
      (locomotionInit sqrtFn hp train test).test_dataset.motion =
        dropLastChans3
          (tileClips (1 + hp.Train.batch_size / (test.d0 + 7))
            (concatClips
              (standardize test (locomotionInit sqrtFn hp train test).scaler)
              (create_synth_test_data test.d1 test.d2
                (locomotionInit sqrtFn hp train test).scaler))) :=
  ⟨rfl, rfl, rfl, rfl, rfl, rfl, rfl⟩

/-- C4: `create_synth_test_data` builds exactly 7 synthetic clips of the
requested frame and feature count, and after standardizing and re-zeroing
the pose block, every entry of channels 0..62 is zero. -/
theorem create_synth_test_data_spec (n_frames nFeats : Nat) (scaler : Scaler)
    (h : 66 ≤ nFeats) :
    (create_synth_test_data n_frames nFeats scaler).d0 = 7 ∧
      (create_synth_test_data n_frames nFeats scaler).d1 = n_frames ∧
      (create_synth_test_data n_frames nFeats scaler).d2 = nFeats ∧
      ∀ i t c, c < 63 →
        (create_synth_test_data n_frames nFeats scaler).val i t c = 0 := by
  refine ⟨rfl, rfl, rfl, ?_⟩
  intro i t c hc
  simp only [create_synth_test_data, zeroFirstChans]
  exact if_pos hc

/-- Witness for C4 at one frame and 66 features with a unit scaler. -/
theorem create_synth_test_data_spec_witness :
    (create_synth_test_data 1 66 (Scaler.mk (fun _ => 0) (fun _ => 1))).d0 = 7 ∧
      (create_synth_test_data 1 66 (Scaler.mk (fun _ => 0) (fun _ => 1))).d1 = 1 ∧
      (create_synth_test_data 1 66 (Scaler.mk (fun _ => 0) (fun _ => 1))).d2 = 66 ∧
      ∀ i t c, c < 63 →
        (create_synth_test_data 1 66 (Scaler.mk (fun _ => 0) (fun _ => 1))).val i t c
          = 0 :=
  create_synth_test_data_spec 1 66 (Scaler.mk (fun _ => 0) (fun _ => 1))
    (by norm_num)

/-- C5: test-set tiling matches the batch size — the constructor ends with
`n_test = test.d0 + 7` test clips (real plus synthetic, so always at least
one), tiles them `1 + batch_size // n_test` times along the clip axis, and
the tiled test set therefore has `n_test * (1 + batch_size // n_test)`
clips, at least `batch_size` of them. -/
theorem locomotion_test_tiling (sqrtFn : ℚ → ℚ) (hp : HParams)
    (train test : Tensor3) :
    (locomotionInit sqrtFn hp train test).n_test = test.d0 + 7 ∧
      (locomotionInit sqrtFn hp train test).test_dataset.control.d0 =
        (locomotionInit sqrtFn hp train test).n_test *
          (1 + hp.Train.batch_size / (locomotionInit sqrtFn hp train test).n_test) ∧
      hp.Train.batch_size ≤
        (locomotionInit sqrtFn hp train test).test_dataset.control.d0 := by
  refine ⟨rfl, Nat.mul_comm _ _, ?_⟩
  show hp.Train.batch_size ≤ (1 + hp.Train.batch_size / (test.d0 + 7)) * (test.d0 + 7)
  have hmod : hp.Train.batch_size % (test.d0 + 7) < test.d0 + 7 :=
    Nat.mod_lt _ (by omega)
  calc hp.Train.batch_size
      = (test.d0 + 7) * (hp.Train.batch_size / (test.d0 + 7)) +
          hp.Train.batch_size % (test.d0 + 7) :=
        (Nat.div_add_mod _ _).symm
    _ ≤ (test.d0 + 7) * (hp.Train.batch_size / (test.d0 + 7)) + (test.d0 + 7) := by
        omega
    _ = (1 + hp.Train.batch_size / (test.d0 + 7)) * (test.d0 + 7) := by ring

/-- C6: skeleton joint removal preserves the total joint count minus the
removed count — removing the fixed 15-element set from the 32-joint
Human3.6M skeleton leaves `kept_joints` with 32 - 15 = 17 entries and a
17-joint skeleton, and the two hardcoded overrides leave
`parents[11] = 8` and `parents[14] = 8`. -/
theorem h36m_joint_removal :
    h36mKeptJoints.length = 17 ∧
      h36mKeptJoints.length = 32 - h36mRemovedJoints.length ∧
      h36mPreparedSkeleton.parents.length = 17 ∧
      h36mPreparedSkeleton.parents.getD 11 0 = 8 ∧
      h36mPreparedSkeleton.parents.getD 14 0 = 8 := by
  refine ⟨?_, ?_, ?_, ?_, ?_⟩ <;> decide

/-- C7: windowing produces the expected number of windows — a clip with
`frames.length` frames, cut by a `MotionDataset` with window size `seqlen`
and lookahead `n_lookahead` into sliding windows of `seqlen + 1 +
n_lookahead` frames each, yields exactly
`frames.length - seqlen - n_lookahead` windows. -/
theorem motiondataset_window_count (control motion : Tensor3)
    (seqlen n_lookahead : Nat) (dropout : ℚ) (frames : List (Nat → ℚ)) :
    ((MotionDataset.mk control motion seqlen n_lookahead dropout).windowsOfClip
        frames).length = frames.length - seqlen - n_lookahead := by
  have hlen := slidingWindows_length (seqlen + 1 + n_lookahead) (by omega) frames
  simp only [MotionDataset.windowsOfClip, MotionDataset.windowSize] at *
  omega

/-- C10: `Locomotion` and `Human36m` are behaviorally equivalent on their
shared interface — `__init__`, `save_animation` and `n_channels` are
verbatim copies, so for every hyperparameter object and input data the
two classes compute identical dataset objects (hence identical
`get_train_dataset`, `get_test_dataset`, `get_validation_dataset`
results), scaler, channel counts and saved animation outputs, including
the hardcoded parent array handed to the renderer. -/
theorem locomotion_human36m_equiv (sqrtFn : ℚ → ℚ) (hp : HParams)
    (train test : Tensor3) (st : LocState) (control motion : Tensor3) :
    locomotionInit sqrtFn hp train test = human36mInit sqrtFn hp train test ∧
      locomotionSaveAnimation st control motion =
        human36mSaveAnimation st control motion ∧
      locomotionNChannels st = human36mNChannels st ∧
      locomotionAnimParents = human36mAnimParents :=
  ⟨rfl, rfl, rfl, rfl⟩
